import Mathlib

/-!
Verification of the Kika desktop-overlay companion.

The development shallowly embeds the claim-relevant parts of the source:
  * the settings store (`src/shared/settingsStore.js`): dynamic JSON-like
    values, `deepMerge`, `validateSettings`, `loadSettings`, `getSettings`,
    `saveSettings`, `updateSettings`, `resetSettings`;
  * the default settings (`src/shared/defaultSettings.js`);
  * the overlay window controller (`src/main/windows/overlayWindow.js`):
    `computeOverlayBounds`, `applyOverlayBounds`, `setClickThrough`,
    `createOverlayWindow`, `repositionOverlay`, click-through toggles,
    `setOverlayOpacity`, `applyFullscreenOverlayPolicy`;
  * the input classifier and event bus (`src/main/ipc/index.js`):
    `classifyKeyAction`, `notifyRenderer`, the keydown/mousedown handlers of
    `initGlobalInputHooks`;
  * the renderer animation state machine
    (`src/renderer/overlay/overlay.js`): `setState`, `update`,
    `triggerOneShot`.

JavaScript numbers are modelled as rationals, JS exceptions as
`Except String`, and the mutable module-level variables as explicit state
records threaded through the operations.
-/

/-! ## Dynamic JS values

`JVal` models the JSON-like values flowing through the settings store:
`null`, `undefined` (absence), booleans, numbers, strings, arrays and plain
objects.  Objects are ordered association lists, mirroring JS property
order; objects built by the modelled code always have distinct keys.
-/

mutual

inductive JVal where
  | null : JVal
  | undefined : JVal
  | bool : Bool → JVal
  | num : ℚ → JVal
  | str : String → JVal
  | arr : JArr → JVal
  | obj : JFields → JVal

inductive JArr where
  | nil : JArr
  | cons : JVal → JArr → JArr

inductive JFields where
  | nil : JFields
  | cons : String → JVal → JFields → JFields

end

deriving instance DecidableEq for JVal

/-- `Object.prototype.hasOwnProperty` / the `key in obj` test on a field list. -/
def JFields.hasKey : JFields → String → Bool
  | .nil, _ => false
  | .cons k _ rest, key => k == key || rest.hasKey key

/-- Field lookup, `undefined` when the key is absent. -/
def JFields.get : JFields → String → JVal
  | .nil, _ => .undefined
  | .cons k v rest, key => if k == key then v else rest.get key

/-- `result[key] = value` on an object literal: replace in place when the key
exists (JS keeps the original insertion order), append otherwise. -/
def JFields.set : JFields → String → JVal → JFields
  | .nil, key, value => .cons key value .nil
  | .cons k v rest, key, value =>
    if k == key then .cons k value rest else .cons k v (rest.set key value)

/-- Spread `{ ...target }`: objects copy their fields; `null`, `undefined`,
numbers and booleans spread to the empty object.  (Spreading strings or
arrays would contribute index keys; the modelled call sites never do that.) -/
def jsSpread : JVal → JFields
  | .obj fs => fs
  | _ => .nil

/-- `source[key] !== null && typeof source[key] === 'object'
&& !Array.isArray(source[key])`: exactly the plain objects. -/
def isPlainObj : JVal → Bool
  | .obj _ => true
  | _ => false

/-- `typeof v === 'object' && !Array.isArray(v)` alone: plain objects and
`null` (in JS `typeof null === 'object'`). -/
def isObjTypeof : JVal → Bool
  | .obj _ => true
  | .null => true
  | _ => false

/-- The `key in target` operator: property test on objects, a `TypeError`
on `null`, `undefined` and primitives. -/
def jsIn (t : JVal) (key : String) : Except String Bool :=
  match t with
  | .obj fs => .ok (fs.hasKey key)
  | _ => .error "TypeError: in operator on a non-object"

/-- Member read `v.key`: field (or `undefined`) on objects, a `TypeError` on
`null`/`undefined`, `undefined` on boxed primitives (no own properties of
primitives are ever read by the modelled code). -/
def jsDot (v : JVal) (key : String) : Except String JVal :=
  match v with
  | .obj fs => .ok (fs.get key)
  | .null => .error "TypeError: cannot read properties of null"
  | .undefined => .error "TypeError: cannot read properties of undefined"
  | _ => .ok .undefined

/-- Optional chaining `v?.key`: `undefined` when the base is `null` or
`undefined`, an ordinary member read otherwise. -/
def jsOptDot (v : JVal) (key : String) : JVal :=
  match v with
  | .obj fs => fs.get key
  | _ => .undefined

/-- Nullish coalescing `v ?? d`. -/
def jsNullish (v d : JVal) : JVal :=
  match v with
  | .null => d
  | .undefined => d
  | _ => v

/-- JS truthiness. -/
def jsTruthy : JVal → Bool
  | .null => false
  | .undefined => false
  | .bool b => b
  | .num q => q != 0
  | .str s => s != ""
  | .arr _ => true
  | .obj _ => true

/-- Nested assignment `root.k1.k2 = value` (non-strict mode): rebuild the
object when `root.k1` is an object, throw a `TypeError` when it is `null` or
`undefined`, and silently do nothing when it is a boxed primitive.  The
functional rebuild is observationally faithful here: the modelled code only
assigns into objects freshly created by the enclosing merge. -/
def jsAssign2 (root : JVal) (k1 k2 : String) (value : JVal) : Except String JVal := do
  let base ← jsDot root k1
  match base with
  | .obj fs => pure (.obj ((jsSpread root).set k1 (.obj (fs.set k2 value))))
  | .null => .error "TypeError: cannot set properties of null"
  | .undefined => .error "TypeError: cannot set properties of undefined"
  | _ => pure root

/-! ## deepMerge (settingsStore.js)

```
function deepMerge(target, source) {
  const result = { ...target };
  for (const key of Object.keys(source)) {
    if (source[key] !== null && typeof source[key] === 'object' &&
        !Array.isArray(source[key]) && key in target &&
        typeof target[key] === 'object' && !Array.isArray(target[key])) {
      result[key] = deepMerge(target[key], source[key]);
    } else {
      result[key] = source[key];
    }
  }
  return result;
}
```

`Object.keys` throws on `null`/`undefined` sources; `key in target` throws
when `target` is `null` (reachable when a stored `null` meets an incoming
object whose first own key holds a plain object, since
`typeof null === 'object'`).
-/

mutual

def deepMergeV (t s : JVal) : Except String JVal :=
  match s with
  | .obj sf => Except.map JVal.obj (deepMergeFields t (jsSpread t) sf)
  | .null => .error "TypeError: Object.keys called on null"
  | .undefined => .error "TypeError: Object.keys called on undefined"
  | _ => .ok (.obj (jsSpread t))

def deepMergeFields (t : JVal) (acc : JFields) : JFields → Except String JFields
  | .nil => .ok acc
  | .cons key sv rest => do
    let newVal ←
      if isPlainObj sv then do
        let present ← jsIn t key
        if present then
          let tv ← jsDot t key
          if isObjTypeof tv then deepMergeV tv sv else pure sv
        else pure sv
      else pure sv
    deepMergeFields t (acc.set key newVal) rest

end

/-! ## Default settings (defaultSettings.js)

The `DEFAULT_SETTINGS` literal, parameterized by `process.platform` (it only
appears in `overlayAboveFullscreen`).  Note that the literal has **no**
`size` key even though `SETTINGS_KEYS` documents `'size.scale'` and the
validator reads `validated.size.scale`.
-/

/-- Convenience constructor for object literals. -/
def jobj : List (String × JVal) → JFields
  | [] => .nil
  | (k, v) :: rest => .cons k v (jobj rest)

def DEFAULT_SETTINGS (platform : String) : JVal :=
  .obj (jobj
    [ ("position", .obj (jobj
        [ ("mode", .str "preset")
        , ("preset", .str "bottomCenter")
        , ("x", .num 0)
        , ("y", .num 0) ]))
    , ("window", .obj (jobj
        [ ("width", .num 128)
        , ("height", .num 128)
        , ("paddingFromEdge", .num 20) ]))
    , ("clickThroughEnabled", .bool true)
    , ("visibleOnAllWorkspaces", .bool true)
    , ("overlayAboveFullscreen", .bool (platform == "darwin"))
    , ("draggableWhenNotClickThrough", .bool true)
    , ("locked", .bool false)
    , ("animation", .obj (jobj [ ("idleFps", .num 8), ("hitFps", .num 12) ]))
    , ("inputHooks", .obj (jobj
        [ ("enabled", .bool true), ("ignoreModifierKeys", .bool true) ]))
    , ("activeCharacterPackId", .str "default")
    , ("characterPacks", .obj (jobj
        [ ("custom", .obj (jobj
            [ ("idle", .null), ("hitLeft", .null)
            , ("hitRight", .null), ("hitBoth", .null) ])) ])) ])

/-! ## validateSettings (settingsStore.js)

```
function validateSettings(settings) {
  const validated = deepMerge(DEFAULT_SETTINGS, settings);
  if (!['preset', 'free'].includes(validated.position.mode)) {
    validated.position.mode = DEFAULT_SETTINGS.position.mode;
  }
  const validPresets = ['bottomCenter', 'bottomLeft', 'bottomRight', 'topLeft', 'topRight'];
  if (!validPresets.includes(validated.position.preset)) {
    validated.position.preset = DEFAULT_SETTINGS.position.preset;
  }
  if (typeof validated.size.scale !== 'number' || validated.size.scale < 0.5 || validated.size.scale > 5) {
    validated.size.scale = DEFAULT_SETTINGS.size.scale;
  }
  ... five boolean checks ...
  return validated;
}
```

The scale check reads `validated.size.scale`; since `DEFAULT_SETTINGS` has
no `size` key, `validated.size` is `undefined` whenever the incoming object
lacks one, and the read throws a `TypeError`.  Likewise the fallback
assignment reads `DEFAULT_SETTINGS.size.scale`, which always throws.
-/

def validPresets : List String :=
  ["bottomCenter", "bottomLeft", "bottomRight", "topLeft", "topRight"]

/-- One `typeof validated.k !== 'boolean'` check with its default fallback. -/
def validateBoolField (platform : String) (v : JVal) (key : String) :
    Except String JVal := do
  let b ← jsDot v key
  match b with
  | .bool _ => pure v
  | _ => do
    let d ← jsDot (DEFAULT_SETTINGS platform) key
    match v with
    | .obj fs => pure (.obj (fs.set key d))
    | .null => .error "TypeError: cannot set properties of null"
    | .undefined => .error "TypeError: cannot set properties of undefined"
    | _ => pure v

def validateSettings (platform : String) (settings : JVal) : Except String JVal := do
  let v ← deepMergeV (DEFAULT_SETTINGS platform) settings
  -- position.mode ∈ ['preset', 'free']
  let mode ← jsDot v "position" >>= fun p => jsDot p "mode"
  let v ←
    if !(["preset", "free"].map JVal.str).contains mode then do
      let d ← jsDot (DEFAULT_SETTINGS platform) "position" >>= fun p => jsDot p "mode"
      jsAssign2 v "position" "mode" d
    else pure v
  -- position.preset ∈ validPresets
  let preset ← jsDot v "position" >>= fun p => jsDot p "preset"
  let v ←
    if !(validPresets.map JVal.str).contains preset then do
      let d ← jsDot (DEFAULT_SETTINGS platform) "position" >>= fun p => jsDot p "preset"
      jsAssign2 v "position" "preset" d
    else pure v
  -- size.scale: numeric and within [0.5, 5]
  let size ← jsDot v "size"
  let scale ← jsDot size "scale"
  let scaleInvalid :=
    match scale with
    | .num q => decide (q < 1/2) || decide (q > 5)
    | _ => true
  let v ←
    if scaleInvalid then do
      let dsize ← jsDot (DEFAULT_SETTINGS platform) "size"
      let dscale ← jsDot dsize "scale"
      jsAssign2 v "size" "scale" dscale
    else pure v
  -- the five boolean fields
  let v ← validateBoolField platform v "clickThroughEnabled"
  let v ← validateBoolField platform v "draggableWhenNotClickThrough"
  let v ← validateBoolField platform v "locked"
  let v ← validateBoolField platform v "visibleOnAllWorkspaces"
  let v ← validateBoolField platform v "overlayAboveFullscreen"
  pure v

/-! ## The settings store state machine (settingsStore.js)

Module state: the `cachedSettings` variable and the persisted JSON file
(modelled as the parsed value it holds, `none` for a missing file; file
writes at the `fs` level are assumed to succeed — write failures are not
needed by any claim).
-/

structure StoreState where
  cachedSettings : Option JVal
  file : Option JVal
  deriving DecidableEq

/-- `loadSettings()`: serve the cache when set; otherwise read and validate
the file, any thrown error being caught and logged, falling back to a copy
of the defaults. -/
def loadSettings (platform : String) (st : StoreState) : StoreState × JVal :=
  match st.cachedSettings with
  | some c => (st, c)
  | none =>
    match st.file with
    | some userSettings =>
      match validateSettings platform userSettings with
      | .ok v => ({ st with cachedSettings := some v }, v)
      | .error _ =>
        ({ st with cachedSettings := some (DEFAULT_SETTINGS platform) },
         DEFAULT_SETTINGS platform)
    | none =>
      ({ st with cachedSettings := some (DEFAULT_SETTINGS platform) },
       DEFAULT_SETTINGS platform)

/-- `getSettings()` is `loadSettings()`. -/
def getSettings (platform : String) (st : StoreState) : StoreState × JVal :=
  loadSettings platform st

/-- `saveSettings(settings)`: validate, write, update the cache, return
`true`; any thrown error is caught and `false` returned with the state
untouched. -/
def saveSettings (platform : String) (st : StoreState) (settings : JVal) :
    StoreState × Bool :=
  match validateSettings platform settings with
  | .ok validated =>
    ({ cachedSettings := some validated, file := some validated }, true)
  | .error _ => (st, false)

/-- `updateSettings(partialSettings)`: merge into the current settings,
validate, persist, return the validated record.  Errors thrown by the merge
or the validation are **not** caught here and propagate to the caller; the
returned `Except` carries them, alongside the store state as left behind. -/
def updateSettings (platform : String) (st : StoreState) (partialSettings : JVal) :
    StoreState × Except String JVal :=
  let (st1, current) := getSettings platform st
  match deepMergeV current partialSettings with
  | .error e => (st1, .error e)
  | .ok merged =>
    match validateSettings platform merged with
    | .error e => (st1, .error e)
    | .ok validated =>
      let (st2, _success) := saveSettings platform st1 validated
      (st2, .ok validated)

/-- `resetSettings()`: set the cache to a copy of the defaults, attempt to
persist the defaults, and return the cache. -/
def resetSettings (platform : String) (st : StoreState) : StoreState × JVal :=
  let st1 := { st with cachedSettings := some (DEFAULT_SETTINGS platform) }
  let (st2, _success) := saveSettings platform st1 (DEFAULT_SETTINGS platform)
  (st2, DEFAULT_SETTINGS platform)

/-! ## Geometry engine (overlayWindow.js: computeOverlayBounds)

The geometry code reads a small, typed slice of the settings through
optional chaining, so it is embedded over typed records with `Option`
fields (a missing field is `undefined`). -/

structure PositionCfg where
  mode : Option String
  preset : Option String
  x : Option ℚ
  y : Option ℚ
  deriving DecidableEq

structure SizeCfg where
  scale : Option ℚ
  deriving DecidableEq

structure WindowCfg where
  width : Option ℚ
  height : Option ℚ
  paddingFromEdge : Option ℚ
  deriving DecidableEq

structure GeoSettings where
  position : Option PositionCfg
  size : Option SizeCfg
  window : Option WindowCfg
  deriving DecidableEq

/-- `screen.getPrimaryDisplay().workAreaSize`. -/
structure WorkArea where
  width : ℚ
  height : ℚ
  deriving DecidableEq

structure Bounds where
  x : ℚ
  y : ℚ
  width : ℚ
  height : ℚ
  deriving DecidableEq

/-- `Math.max(min, Math.min(max, value))`. -/
def clamp (value lo hi : ℚ) : ℚ := max lo (min hi value)

/-- `Math.round`: half-up, ties toward positive infinity. -/
def jsRound (q : ℚ) : ℤ := ⌊q + 1/2⌋

/-- Base overlay dimensions before scaling (`BASE_WIDTH`, `BASE_HEIGHT`). -/
def BASE_WIDTH : ℚ := 600
def BASE_HEIGHT : ℚ := 400

/-- `DEFAULT_SETTINGS.window.paddingFromEdge`. -/
def DEFAULT_PADDING_FROM_EDGE : ℚ := 20

def computeOverlayBounds (settings : GeoSettings) (screenInfo : WorkArea) : Bounds :=
  let screenWidth := screenInfo.width
  let screenHeight := screenInfo.height
  let padding := (settings.window.bind WindowCfg.paddingFromEdge).getD DEFAULT_PADDING_FROM_EDGE
  let baseWidth := (settings.window.bind WindowCfg.width).getD BASE_WIDTH
  let baseHeight := (settings.window.bind WindowCfg.height).getD BASE_HEIGHT
  let scale := clamp ((settings.size.bind SizeCfg.scale).getD 1) (1/2) 2
  let width : ℚ := jsRound (baseWidth * scale)
  let height : ℚ := jsRound (baseHeight * scale)
  let xy : ℚ × ℚ :=
    if (settings.position.bind PositionCfg.mode) = some "free" then
      ((settings.position.bind PositionCfg.x).getD 0,
       (settings.position.bind PositionCfg.y).getD 0)
    else
      let preset := (settings.position.bind PositionCfg.preset).getD "bottomCenter"
      if preset = "bottomCenter" then
        ((jsRound ((screenWidth - width) / 2) : ℚ), screenHeight - height - padding)
      else if preset = "bottomLeft" then
        (padding, screenHeight - height - padding)
      else if preset = "bottomRight" then
        (screenWidth - width - padding, screenHeight - height - padding)
      else if preset = "topLeft" then
        (padding, padding)
      else if preset = "topRight" then
        (screenWidth - width - padding, padding)
      else
        ((jsRound ((screenWidth - width) / 2) : ℚ), screenHeight - height - padding)
  { x := xy.1, y := xy.2, width := width, height := height }

/-! ## Window controller (overlayWindow.js)

The `BrowserWindow` handle is modelled as a reference carrying an identity
and a destroyed flag; method calls on the handle either throw (absent or
destroyed reference) or emit a command describing the native call.  Each
controller operation returns the list of emitted commands, or the error it
lets escape. -/

structure WinRef where
  id : ℕ
  destroyed : Bool
  deriving DecidableEq

/-- Native window calls the controller can issue. -/
inductive WinCmd where
  | setIgnoreMouseEvents (ignore : Bool) (forward : Option Bool)
  | setPosition (x y : ℚ)
  | setSize (width height : ℚ)
  | setOpacity (opacity : ℚ)
  | setAlwaysOnTop (flag : Bool) (level : Option String)
  | setVisibleOnAllWorkspaces (visible : Bool)
      (visibleOnFullScreen skipTransformProcessType : Option Bool)
  deriving DecidableEq

/-- Calling a method on the handle: a `TypeError` when the reference is
null, an Electron `Object has been destroyed` error when the window was
destroyed, the emitted command otherwise. -/
def winInvoke (w : Option WinRef) (c : WinCmd) : Except String WinCmd :=
  match w with
  | none => .error "TypeError: cannot call method of null"
  | some r =>
    if r.destroyed then .error "Error: Object has been destroyed" else .ok c

/-- `PLATFORM_CONFIG` entry (defaultSettings.js). -/
structure PlatformCfg where
  supportsForward : Bool
  windowLevel : String
  deriving DecidableEq

/-- `PLATFORM_CONFIG[platform] || PLATFORM_CONFIG.linux`. -/
def platformConfig (platform : String) : PlatformCfg :=
  if platform = "darwin" then { supportsForward := true, windowLevel := "floating" }
  else if platform = "win32" then { supportsForward := false, windowLevel := "screen-saver" }
  else { supportsForward := false, windowLevel := "floating" }

/-- `setClickThrough(window, clickThrough)`: no liveness check — the
method call is issued directly on the handle it is given. -/
def setClickThrough (window : Option WinRef) (platform : String)
    (clickThrough : Bool) : Except String (List WinCmd) := do
  let config := platformConfig platform
  if clickThrough then
    let c ← winInvoke window (.setIgnoreMouseEvents true (some config.supportsForward))
    pure [c]
  else
    let c ← winInvoke window (.setIgnoreMouseEvents false none)
    pure [c]

/-- `applyOverlayBounds(win, bounds)`: liveness-checked no-op. -/
def applyOverlayBounds (win : Option WinRef) (bounds : Bounds) :
    Except String (List WinCmd) :=
  match win with
  | none => .ok []
  | some r =>
    if r.destroyed then .ok []
    else .ok [.setPosition bounds.x bounds.y, .setSize bounds.width bounds.height]

/-- Module state of overlayWindow.js: the `overlayWindow` variable, plus a
fresh-identity counter standing for `new BrowserWindow(...)` allocation. -/
structure OverlayModule where
  overlayWindow : Option WinRef
  nextId : ℕ
  deriving DecidableEq

/-- `createOverlayWindow(settings)`: computes bounds, **unconditionally**
constructs a new `BrowserWindow`, stores it in the module variable and
returns it.  There is no check for an already-existing window.  (The
window construction options, `loadFile`, dev-tools and the subsequent
`setAlwaysOnTop`/`setClickThrough`/policy calls act on the fresh window and
are not needed by the claims about handle ownership.) -/
def createOverlayWindow (st : OverlayModule) (settings : GeoSettings)
    (screenInfo : WorkArea) : OverlayModule × WinRef :=
  let _bounds := computeOverlayBounds settings screenInfo
  let w : WinRef := { id := st.nextId, destroyed := false }
  ({ overlayWindow := some w, nextId := st.nextId + 1 }, w)

/-- `getOverlayWindow()`. -/
def getOverlayWindow (st : OverlayModule) : Option WinRef :=
  st.overlayWindow

/-- `repositionOverlay(settings)`: liveness-checked, then computes bounds
and applies them. -/
def repositionOverlay (st : OverlayModule) (settings : GeoSettings)
    (screenInfo : WorkArea) : Except String (List WinCmd) :=
  match st.overlayWindow with
  | none => .ok []
  | some r =>
    if r.destroyed then .ok []
    else applyOverlayBounds (some r) (computeOverlayBounds settings screenInfo)

/-- `enableOverlayClickThrough()`: liveness-checked. -/
def enableOverlayClickThrough (st : OverlayModule) (platform : String) :
    Except String (List WinCmd) :=
  match st.overlayWindow with
  | none => .ok []
  | some r =>
    if r.destroyed then .ok []
    else .ok [.setIgnoreMouseEvents true (some (platformConfig platform).supportsForward)]

/-- `disableOverlayClickThrough()`: liveness-checked. -/
def disableOverlayClickThrough (st : OverlayModule) : Except String (List WinCmd) :=
  match st.overlayWindow with
  | none => .ok []
  | some r =>
    if r.destroyed then .ok []
    else .ok [.setIgnoreMouseEvents false none]

/-- `setOverlayOpacity(opacity)`: liveness-checked. -/
def setOverlayOpacity (st : OverlayModule) (opacity : ℚ) :
    Except String (List WinCmd) :=
  match st.overlayWindow with
  | none => .ok []
  | some r =>
    if r.destroyed then .ok []
    else .ok [.setOpacity opacity]

/-- Settings slice read by `applyFullscreenOverlayPolicy`. -/
structure PolicySettings where
  overlayAboveFullscreen : Option Bool
  visibleOnAllWorkspaces : Option Bool
  deriving DecidableEq

/-- `applyFullscreenOverlayPolicy(win, settings)`: liveness-checked, then a
platform-cased best-effort combination of z-order level and workspace
visibility. -/
def applyFullscreenOverlayPolicy (win : Option WinRef) (settings : PolicySettings)
    (platform : String) : Except String (List WinCmd) :=
  match win with
  | none => .ok []
  | some r =>
    if r.destroyed then .ok []
    else
      let aboveFullscreen := settings.overlayAboveFullscreen.getD false
      let visibleAllWs := settings.visibleOnAllWorkspaces.getD true
      if platform = "win32" then
        .ok [.setAlwaysOnTop true (some "screen-saver")]
      else if platform = "darwin" then
        if aboveFullscreen then
          .ok [.setAlwaysOnTop true (some "screen-saver"),
               .setVisibleOnAllWorkspaces visibleAllWs (some true) (some true)]
        else
          .ok [.setAlwaysOnTop true (some "floating"),
               .setVisibleOnAllWorkspaces visibleAllWs (some false) (some true)]
      else
        .ok ([.setAlwaysOnTop true none] ++
             (if visibleAllWs then [.setVisibleOnAllWorkspaces true none none]
              else [.setVisibleOnAllWorkspaces false none none]))

/-! ## Input classifier and event bus (src/main/ipc/index.js)

Key codes are the `UiohookKey` constants of the external `uiohook-napi`
collaborator. -/

namespace UiohookKey

def Q : ℕ := 0x10
def W : ℕ := 0x11
def E : ℕ := 0x12
def R : ℕ := 0x13
def T : ℕ := 0x14
def Y : ℕ := 0x15
def U : ℕ := 0x16
def I : ℕ := 0x17
def O : ℕ := 0x18
def P : ℕ := 0x19
def A : ℕ := 0x1E
def S : ℕ := 0x1F
def D : ℕ := 0x20
def F : ℕ := 0x21
def G : ℕ := 0x22
def H : ℕ := 0x23
def J : ℕ := 0x24
def K : ℕ := 0x25
def L : ℕ := 0x26
def Z : ℕ := 0x2C
def X : ℕ := 0x2D
def C : ℕ := 0x2E
def V : ℕ := 0x2F
def B : ℕ := 0x30
def N : ℕ := 0x31
def M : ℕ := 0x32
def Digit1 : ℕ := 0x02
def Digit2 : ℕ := 0x03
def Digit3 : ℕ := 0x04
def Digit4 : ℕ := 0x05
def Digit5 : ℕ := 0x06
def Digit6 : ℕ := 0x07
def Digit7 : ℕ := 0x08
def Digit8 : ℕ := 0x09
def Digit9 : ℕ := 0x0A
def Digit0 : ℕ := 0x0B
def Backquote : ℕ := 0x29
def Minus : ℕ := 0x0C
def Equal : ℕ := 0x0D
def BracketLeft : ℕ := 0x1A
def BracketRight : ℕ := 0x1B
def Backslash : ℕ := 0x2B
def Semicolon : ℕ := 0x27
def Quote : ℕ := 0x28
def Comma : ℕ := 0x33
def Period : ℕ := 0x34
def Slash : ℕ := 0x35
def Backspace : ℕ := 0x0E
def Space : ℕ := 0x39
def Enter : ℕ := 0x1C
def Tab : ℕ := 0x0F
def CapsLock : ℕ := 0x3A
def Escape : ℕ := 0x01
def F1 : ℕ := 0x3B
def F2 : ℕ := 0x3C
def F3 : ℕ := 0x3D
def F4 : ℕ := 0x3E
def F5 : ℕ := 0x3F
def F6 : ℕ := 0x40
def F7 : ℕ := 0x41
def F8 : ℕ := 0x42
def F9 : ℕ := 0x43
def F10 : ℕ := 0x44
def F11 : ℕ := 0x57
def F12 : ℕ := 0x58
def Shift : ℕ := 0x2A
def ShiftRight : ℕ := 0x36
def Ctrl : ℕ := 0x1D
def CtrlRight : ℕ := 0x0E1D
def Alt : ℕ := 0x38
def AltRight : ℕ := 0x0E38
def Meta : ℕ := 0x0E5B
def MetaRight : ℕ := 0x0E5C
def ArrowLeft : ℕ := 0xE04B
def ArrowRight : ℕ := 0xE04D
def ArrowUp : ℕ := 0xE048
def ArrowDown : ℕ := 0xE050
def Home : ℕ := 0x0E47
def End : ℕ := 0x0E4F
def PageUp : ℕ := 0x0E49
def PageDown : ℕ := 0x0E51
def Insert : ℕ := 0x0E52
def Delete : ℕ := 0x0E53

end UiohookKey

/-- `LEFT_KEYS` (left-hand keys → left paw animation). -/
def LEFT_KEYS : List ℕ :=
  [ UiohookKey.Q, UiohookKey.W, UiohookKey.E, UiohookKey.R, UiohookKey.T
  , UiohookKey.A, UiohookKey.S, UiohookKey.D, UiohookKey.F, UiohookKey.G
  , UiohookKey.Z, UiohookKey.X, UiohookKey.C, UiohookKey.V, UiohookKey.B
  , UiohookKey.Digit1, UiohookKey.Digit2, UiohookKey.Digit3, UiohookKey.Digit4
  , UiohookKey.Digit5
  , UiohookKey.Backquote
  , UiohookKey.ArrowLeft ]

/-- `RIGHT_KEYS` (right-hand keys → right paw animation). -/
def RIGHT_KEYS : List ℕ :=
  [ UiohookKey.Y, UiohookKey.U, UiohookKey.I, UiohookKey.O, UiohookKey.P
  , UiohookKey.H, UiohookKey.J, UiohookKey.K, UiohookKey.L
  , UiohookKey.N, UiohookKey.M
  , UiohookKey.Digit6, UiohookKey.Digit7, UiohookKey.Digit8, UiohookKey.Digit9
  , UiohookKey.Digit0
  , UiohookKey.Minus, UiohookKey.Equal
  , UiohookKey.BracketLeft, UiohookKey.BracketRight, UiohookKey.Backslash
  , UiohookKey.Semicolon, UiohookKey.Quote
  , UiohookKey.Comma, UiohookKey.Period, UiohookKey.Slash
  , UiohookKey.Backspace, UiohookKey.Delete
  , UiohookKey.ArrowRight
  , UiohookKey.Home, UiohookKey.End, UiohookKey.PageUp, UiohookKey.PageDown
  , UiohookKey.Insert ]

/-- `BOTH_KEYS` (documented set; `classifyKeyAction` never consults it — any
key outside the left/right sets already defaults to both). -/
def BOTH_KEYS : List ℕ :=
  [ UiohookKey.Space, UiohookKey.Enter, UiohookKey.Tab
  , UiohookKey.CapsLock, UiohookKey.Escape
  , UiohookKey.F1, UiohookKey.F2, UiohookKey.F3, UiohookKey.F4
  , UiohookKey.F5, UiohookKey.F6, UiohookKey.F7, UiohookKey.F8
  , UiohookKey.F9, UiohookKey.F10, UiohookKey.F11, UiohookKey.F12
  , UiohookKey.Shift, UiohookKey.ShiftRight
  , UiohookKey.Ctrl, UiohookKey.CtrlRight
  , UiohookKey.Alt, UiohookKey.AltRight
  , UiohookKey.Meta, UiohookKey.MetaRight
  , UiohookKey.ArrowUp, UiohookKey.ArrowDown ]

/-- The explicit modifier list inside the keydown handler. -/
def modifierKeys : List ℕ :=
  [ UiohookKey.Shift, UiohookKey.ShiftRight
  , UiohookKey.Ctrl, UiohookKey.CtrlRight
  , UiohookKey.Alt, UiohookKey.AltRight
  , UiohookKey.Meta, UiohookKey.MetaRight ]

/-- `classifyKeyAction(keycode)`. -/
def classifyKeyAction (keycode : ℕ) : String :=
  if LEFT_KEYS.contains keycode then "left"
  else if RIGHT_KEYS.contains keycode then "right"
  else "both"

/-- Payload of the `input-event` channel. -/
structure InputEvent where
  type : String
  action : String
  count : ℕ
  timestamp : ℤ
  deriving DecidableEq

/-- Module state of src/main/ipc/index.js: the `totalInputs` and
`inputHooksRunning` variables, plus the `ignoreModifiers` value captured by
the registered `uIOhook.on` closures (`none` while no handlers are
registered).  The overlay handle is the one `getOverlayWindow()` returns. -/
structure IpcState where
  totalInputs : ℕ
  inputHooksRunning : Bool
  capturedIgnoreModifiers : Option JVal
  overlayWindow : Option WinRef
  deriving DecidableEq

/-- The `overlayWindow && !overlayWindow.isDestroyed()` guard. -/
def windowLive (st : IpcState) : Bool :=
  match st.overlayWindow with
  | none => false
  | some r => !r.destroyed

/-- `notifyRenderer(type, action = 'both')`: increment the counter, then
send the `input-event` payload when a live overlay window exists. -/
def notifyRenderer (st : IpcState) (type action : String) (now : ℤ) :
    IpcState × Option InputEvent :=
  let st1 := { st with totalInputs := st.totalInputs + 1 }
  if windowLive st1 then
    (st1, some { type := type, action := action, count := st1.totalInputs, timestamp := now })
  else
    (st1, none)

/-- The `keydown` closure registered by `initGlobalInputHooks`, with the
captured `ignoreModifiers` value made explicit: drop modifier keys
entirely when the captured value is truthy, otherwise classify and notify. -/
def keydownHandler (ignoreModifiers : JVal) (keycode : ℕ) (st : IpcState)
    (now : ℤ) : IpcState × Option InputEvent :=
  if jsTruthy ignoreModifiers && modifierKeys.contains keycode then
    (st, none)
  else
    notifyRenderer st "keypress" (classifyKeyAction keycode) now

/-- The `mousedown` closure: `notifyRenderer('click')`, the action argument
defaulting to both. -/
def mousedownHandler (st : IpcState) (now : ℤ) : IpcState × Option InputEvent :=
  notifyRenderer st "click" "both" now

/-- `settings.inputHooks?.ignoreModifierKeys ?? true`. -/
def readIgnoreModifiers (settings : JVal) : Except String JVal := do
  let inputHooks ← jsDot settings "inputHooks"
  pure (jsNullish (jsOptDot inputHooks "ignoreModifierKeys") (.bool true))

/-- `initGlobalInputHooks(settings)`: an immediate return while hooks are
already running; otherwise register the two closures (capturing
`ignoreModifiers` once) and attempt `uIOhook.start()` — on start failure the
error is caught and `inputHooksRunning` stays false, the handlers staying
registered. -/
def initGlobalInputHooks (st : IpcState) (settings : JVal)
    (startSucceeds : Bool) : Except String IpcState :=
  if st.inputHooksRunning then .ok st
  else do
    let ignoreModifiers ← readIgnoreModifiers settings
    let st1 := { st with capturedIgnoreModifiers := some ignoreModifiers }
    if startSucceeds then pure { st1 with inputHooksRunning := true }
    else pure st1

/-- Delivery of an asynchronous `keydown` from the OS hook: dispatched to
the registered closure, a no-op while none is registered. -/
def dispatchKeydown (st : IpcState) (keycode : ℕ) (now : ℤ) :
    IpcState × Option InputEvent :=
  match st.capturedIgnoreModifiers with
  | none => (st, none)
  | some ign => keydownHandler ign keycode st now

/-- Combined controller-context state for the settings/IPC interplay. -/
structure SysState where
  store : StoreState
  ipc : IpcState
  deriving DecidableEq

/-- The `settings:update` IPC handler as it affects the modelled state:
`updateSettings` runs against the store (throwing in the renderer promise if
it throws); the remaining work (broadcast, click-through, opacity,
reposition) acts on windows, not on the IPC module state. -/
def applySettingsUpdate (platform : String) (sys : SysState)
    (partialSettings : JVal) : SysState :=
  let (st, _result) := updateSettings platform sys.store partialSettings
  { sys with store := st }

/-- A sequence of `settings:update` calls. -/
def applySettingsUpdates (platform : String) (sys : SysState) :
    List JVal → SysState
  | [] => sys
  | p :: rest => applySettingsUpdates platform (applySettingsUpdate platform sys p) rest

/-! ## Animation state machine (src/renderer/overlay/overlay.js)

Time is a rational (milliseconds, `performance.now()` /
`requestAnimationFrame` timestamps).  An `Animation` carries the loaded
sprite metadata; `frameDuration = 1000 / fps`. -/

structure Animation where
  name : String
  frameCount : ℕ
  fps : ℚ
  loop : Bool
  isLoaded : Bool
  deriving DecidableEq

def Animation.frameDuration (a : Animation) : ℚ := 1000 / a.fps

/-- `AnimationStateMachine` fields (the canvas and drawing context are
display-side I/O and carry no machine state relevant to the claims). -/
structure ASM where
  animations : List (String × Animation)
  currentState : Option String
  currentAnimation : Option Animation
  frameIndex : ℕ
  lastFrameTime : ℚ
  pendingState : Option String
  deriving DecidableEq

/-- `this.animations.get(name)`. -/
def ASM.getAnim (m : ASM) (name : String) : Option Animation :=
  (m.animations.find? (fun kv => kv.1 == name)).map Prod.snd

/-- `setState(name, options)`; `now` is `performance.now()` at the call.
`options.onComplete || null` turns an empty string into null. -/
def ASM.setState (m : ASM) (name : String) (onComplete : Option String)
    (force : Bool) (now : ℚ) : ASM :=
  match m.getAnim name with
  | none => m
  | some animation =>
    if !animation.isLoaded then m
    else if m.currentState == some name && !force then m
    else
      { m with
        currentState := some name
        currentAnimation := some animation
        frameIndex := 0
        lastFrameTime := now
        pendingState := onComplete.bind (fun s => if s = "" then none else some s) }

/-- `update(timestamp)`; `now` is `performance.now()` as observed by the
nested `setState` call on one-shot completion. -/
def ASM.update (m : ASM) (timestamp now : ℚ) : ASM :=
  match m.currentAnimation with
  | none => m
  | some a =>
    if !a.isLoaded then m
    else
      let elapsed := timestamp - m.lastFrameTime
      if elapsed ≥ a.frameDuration then
        let nextFrame := m.frameIndex + 1
        if nextFrame ≥ a.frameCount then
          if a.loop then { m with frameIndex := 0, lastFrameTime := timestamp }
          else
            match m.pendingState with
            | some p => m.setState p none false now
            | none =>
              { m with frameIndex := a.frameCount - 1, lastFrameTime := timestamp }
        else { m with frameIndex := nextFrame, lastFrameTime := timestamp }
      else m

/-- `triggerOneShot(stateName)`. -/
def ASM.triggerOneShot (m : ASM) (stateName : String) (now : ℚ) : ASM :=
  m.setState stateName (some "idle") false now

/-- The frame duration of the machine's current animation (0 when none). -/
def ASM.curDuration (m : ASM) : ℚ :=
  match m.currentAnimation with
  | none => 0
  | some a => a.frameDuration

/-- One qualifying render-loop tick: an `update` whose timestamp arrives
exactly one frame duration after the last frame advance (so
`elapsed >= frameDuration` holds). -/
def qtick (m : ASM) : ASM :=
  m.update (m.lastFrameTime + m.curDuration) (m.lastFrameTime + m.curDuration)

/-- `n` qualifying ticks, the last application outermost. -/
def qtickIter : ℕ → ASM → ASM
  | 0, m => m
  | n + 1, m => qtick (qtickIter n m)

/-- The `ANIMATION_CONFIG` animations, as loaded by the renderer. -/
def idleAnimation : Animation :=
  { name := "idle", frameCount := 4, fps := 8, loop := true, isLoaded := true }

def hitAnimation : Animation :=
  { name := "hit", frameCount := 4, fps := 12, loop := false, isLoaded := true }

/-! ## Theorems -/

section Geometry

/-- In-range scale is preserved by the clamp. -/
lemma clamp_of_mem (v lo hi : ℚ) (h1 : lo ≤ v) (h2 : v ≤ hi) : clamp v lo hi = v := by
  unfold clamp
  rw [min_eq_right h2, max_eq_right h1]

/-- Claim C2: for every settings object and screen work area,
`computeOverlayBounds` clamps the scale to `[0.5, 2.0]` and returns
`width = round(baseWidth * scale)` and `height = round(baseHeight * scale)`
exactly; and when `position.mode` is `free` it returns the stored `(x, y)`
coordinates unchanged, with no clamping to the screen bounds (the window
may be placed off-screen, the result not depending on the work area). -/
theorem computeOverlayBounds_scale_free_spec
    (s : GeoSettings) (scr : WorkArea) (w h p sc : ℚ)
    (hw : s.window = some ⟨some w, some h, some p⟩)
    (hs : s.size = some ⟨some sc⟩) :
    (computeOverlayBounds s scr).width = (jsRound (w * clamp sc (1/2) 2) : ℚ) ∧
    (computeOverlayBounds s scr).height = (jsRound (h * clamp sc (1/2) 2) : ℚ) ∧
    (1/2 ≤ sc → sc ≤ 2 →
      (computeOverlayBounds s scr).width = (jsRound (w * sc) : ℚ) ∧
      (computeOverlayBounds s scr).height = (jsRound (h * sc) : ℚ)) ∧
    (∀ (pos : PositionCfg) (px py : ℚ), s.position = some pos →
      pos.mode = some "free" → pos.x = some px → pos.y = some py →
      (computeOverlayBounds s scr).x = px ∧ (computeOverlayBounds s scr).y = py) := by
  have hwidth : (computeOverlayBounds s scr).width = (jsRound (w * clamp sc (1/2) 2) : ℚ) := by
    simp [computeOverlayBounds, hw, hs]
  have hheight : (computeOverlayBounds s scr).height = (jsRound (h * clamp sc (1/2) 2) : ℚ) := by
    simp [computeOverlayBounds, hw, hs]
  refine ⟨hwidth, hheight, ?_, ?_⟩
  · intro hlo hhi
    have hc : clamp sc (1/2) 2 = sc := clamp_of_mem sc (1/2) 2 hlo hhi
    exact ⟨by rw [hwidth, hc], by rw [hheight, hc]⟩
  · intro pos px py hpos hmode hx hy
    constructor
    · simp [computeOverlayBounds, hpos, hmode, hx]
    · simp [computeOverlayBounds, hpos, hmode, hy]

/-- Witness for C2 at a concrete input: scale 3 (clamped to 2) on a 128×128
base, free mode placing the window off-screen at `(-50, 10)`. -/
theorem computeOverlayBounds_scale_free_spec_witness :
    (computeOverlayBounds
        ⟨some ⟨some "free", none, some (-50), some 10⟩, some ⟨some 3⟩,
         some ⟨some 128, some 128, some 20⟩⟩ ⟨1920, 1080⟩).width
      = (jsRound ((128 : ℚ) * clamp 3 (1/2) 2) : ℚ) ∧
    (computeOverlayBounds
        ⟨some ⟨some "free", none, some (-50), some 10⟩, some ⟨some 3⟩,
         some ⟨some 128, some 128, some 20⟩⟩ ⟨1920, 1080⟩).x = -50 := by
  refine ⟨(computeOverlayBounds_scale_free_spec _ ⟨1920, 1080⟩ 128 128 20 3 rfl rfl).1, ?_⟩
  exact ((computeOverlayBounds_scale_free_spec _ ⟨1920, 1080⟩ 128 128 20 3 rfl rfl).2.2.2
    ⟨some "free", none, some (-50), some 10⟩ (-50) 10 rfl rfl rfl rfl).1

/-- The C3 settings record: preset mode with the given preset name, a
128×128 window with padding 20, no explicit scale (defaults to 1.0). -/
def presetSettings (preset : String) : GeoSettings :=
  ⟨some ⟨some "preset", some preset, none, none⟩, none,
   some ⟨some 128, some 128, some 20⟩⟩

/-- Claim C3: in preset mode `computeOverlayBounds` places the window per
the named anchor formulas: `bottomCenter` on a 1920×1080 work area with
width = height = 128 and padding 20 gives `x = 896, y = 932`; `topRight`
with the same inputs gives `x = 1772, y = 20`; and any preset string
outside the five named anchors yields the same bounds as `bottomCenter`. -/
theorem computeOverlayBounds_presets_spec :
    computeOverlayBounds (presetSettings "bottomCenter") ⟨1920, 1080⟩
      = ⟨896, 932, 128, 128⟩ ∧
    computeOverlayBounds (presetSettings "topRight") ⟨1920, 1080⟩
      = ⟨1772, 20, 128, 128⟩ ∧
    (∀ (s : GeoSettings) (scr : WorkArea) (pos : PositionCfg) (m pName : String),
      s.position = some pos → pos.mode = some m → m ≠ "free" →
      pos.preset = some pName → pName ∉ validPresets →
      computeOverlayBounds s scr =
        computeOverlayBounds
          { s with position := some { pos with preset := some "bottomCenter" } } scr) := by
  refine ⟨?_, ?_, ?_⟩
  · simp only [computeOverlayBounds, presetSettings, Bounds.mk.injEq]
    norm_num [clamp, jsRound]
    simp
  · simp only [computeOverlayBounds, presetSettings, Bounds.mk.injEq]
    norm_num [clamp, jsRound]
    simp
  intro s scr pos m pName hpos hmode hm hpreset hnot
  simp only [validPresets, List.mem_cons, List.not_mem_nil, or_false, not_or] at hnot
  obtain ⟨h1, h2, h3, h4, h5⟩ := hnot
  simp [computeOverlayBounds, hpos, hmode, hm, hpreset, h1, h2, h3, h4, h5]

/-- Witness for C3 at a concrete unrecognized preset string. -/
theorem computeOverlayBounds_presets_spec_witness :
    computeOverlayBounds (presetSettings "weird") ⟨1920, 1080⟩ =
      computeOverlayBounds (presetSettings "bottomCenter") ⟨1920, 1080⟩ :=
  computeOverlayBounds_presets_spec.2.2 (presetSettings "weird") ⟨1920, 1080⟩
    ⟨some "preset", some "weird", none, none⟩ "preset" "weird"
    rfl rfl (by decide) rfl (by decide)

end Geometry

section Classifier

/-- Every keycode on the explicit modifier list is outside both hand sets,
so it classifies as both. -/
lemma classify_modifier_both (kc : ℕ) (hmod : modifierKeys.contains kc = true) :
    classifyKeyAction kc = "both" := by
  have hmem : kc ∈ modifierKeys := by
    simpa using hmod
  simp only [modifierKeys, List.mem_cons, List.not_mem_nil, or_false] at hmem
  rcases hmem with rfl | rfl | rfl | rfl | rfl | rfl | rfl | rfl <;> decide

/-- Claim C5: `classifyKeyAction` maps every key code to exactly one of
left, right or both: the code for letter A gives left, the code for letter
P gives right, Space gives both, and any code outside the left-hand and
right-hand sets gives both by default; mouse-down events are always emitted
as click type with action both. -/
theorem classifyKeyAction_spec :
    classifyKeyAction UiohookKey.A = "left" ∧
    classifyKeyAction UiohookKey.P = "right" ∧
    classifyKeyAction UiohookKey.Space = "both" ∧
    (∀ kc : ℕ, LEFT_KEYS.contains kc = false → RIGHT_KEYS.contains kc = false →
      classifyKeyAction kc = "both") ∧
    (∀ (st : IpcState) (now : ℤ) (e : InputEvent),
      (mousedownHandler st now).2 = some e → e.type = "click" ∧ e.action = "both") := by
  refine ⟨by decide, by decide, by decide, ?_, ?_⟩
  · intro kc h1 h2
    have h1' : kc ∉ LEFT_KEYS := by simpa using h1
    have h2' : kc ∉ RIGHT_KEYS := by simpa using h2
    simp [classifyKeyAction, h1', h2']
  · intro st now e hsome
    unfold mousedownHandler notifyRenderer at hsome
    by_cases hlive : windowLive { st with totalInputs := st.totalInputs + 1 } = true
    · rw [if_pos hlive] at hsome
      obtain rfl := Option.some.injEq _ _ ▸ hsome
      have := Option.some.inj hsome
      exact ⟨by rw [← this], by rw [← this]⟩
    · rw [if_neg hlive] at hsome
      exact absurd hsome (by simp)

/-- Witness for C5: the unmapped keycode 999 classifies as both, and a
concrete mouse-down with a live overlay window emits a click/both event. -/
theorem classifyKeyAction_spec_witness :
    classifyKeyAction 999 = "both" ∧
    ({ type := "click", action := "both", count := 1, timestamp := 7 } : InputEvent).type
        = "click" ∧
    ({ type := "click", action := "both", count := 1, timestamp := 7 } : InputEvent).action
        = "both" := by
  refine ⟨classifyKeyAction_spec.2.2.2.1 999 (by decide) (by decide), ?_⟩
  exact classifyKeyAction_spec.2.2.2.2
    { totalInputs := 0, inputHooksRunning := true,
      capturedIgnoreModifiers := some (.bool true),
      overlayWindow := some { id := 0, destroyed := false } } 7
    { type := "click", action := "both", count := 1, timestamp := 7 } rfl

/-- Claim C6: a keydown whose key code is on the explicit modifier list is
dropped entirely when `ignoreModifierKeys` is true — no counter increment,
no emitted event; when false the same event is classified both, increments
the counter, and (given a live overlay window) is emitted. -/
theorem modifier_filtering_spec (st : IpcState) (kc : ℕ) (now : ℤ)
    (hmod : modifierKeys.contains kc = true) :
    keydownHandler (.bool true) kc st now = (st, none) ∧
    (keydownHandler (.bool false) kc st now).1.totalInputs = st.totalInputs + 1 ∧
    (windowLive st = true →
      keydownHandler (.bool false) kc st now =
        ({ st with totalInputs := st.totalInputs + 1 },
         some { type := "keypress", action := "both",
                count := st.totalInputs + 1, timestamp := now })) := by
  have hboth := classify_modifier_both kc hmod
  have hlive_eq : windowLive { st with totalInputs := st.totalInputs + 1 } = windowLive st := by
    simp [windowLive]
  have hmem : kc ∈ modifierKeys := by simpa using hmod
  refine ⟨?_, ?_, ?_⟩
  · simp [keydownHandler, jsTruthy, hmem]
  · by_cases hlive : windowLive { st with totalInputs := st.totalInputs + 1 } = true
    · simp [keydownHandler, notifyRenderer, jsTruthy, hlive]
    · simp [keydownHandler, notifyRenderer, jsTruthy, hlive]
  · intro hl
    rw [← hlive_eq] at hl
    simp [keydownHandler, notifyRenderer, jsTruthy, hl, hboth]

/-- Witness for C6 at the left Shift key on a concrete state with a live
overlay window. -/
theorem modifier_filtering_spec_witness :
    keydownHandler (.bool true) UiohookKey.Shift
        { totalInputs := 5, inputHooksRunning := true,
          capturedIgnoreModifiers := some (.bool true),
          overlayWindow := some { id := 0, destroyed := false } } 9
      = ({ totalInputs := 5, inputHooksRunning := true,
           capturedIgnoreModifiers := some (.bool true),
           overlayWindow := some { id := 0, destroyed := false } }, none) :=
  (modifier_filtering_spec
    { totalInputs := 5, inputHooksRunning := true,
      capturedIgnoreModifiers := some (.bool true),
      overlayWindow := some { id := 0, destroyed := false } }
    UiohookKey.Shift 9 (by decide)).1

end Classifier

section Animations

/-- One qualifying tick from a mid-animation frame advances the frame index. -/
lemma qtick_advance (m : ASM) (a : Animation)
    (hca : m.currentAnimation = some a) (hl : a.isLoaded = true)
    (hlt : m.frameIndex + 1 < a.frameCount) :
    qtick m = { m with frameIndex := m.frameIndex + 1,
                       lastFrameTime := m.lastFrameTime + a.frameDuration } := by
  unfold qtick ASM.update ASM.curDuration
  rw [hca]
  simp only [hl, Bool.not_true, Bool.false_eq_true, if_false]
  rw [if_pos (by linarith [le_refl a.frameDuration] : m.lastFrameTime + a.frameDuration - m.lastFrameTime ≥ a.frameDuration)]
  rw [if_neg (by omega : ¬ m.frameIndex + 1 ≥ a.frameCount)]

/-- One qualifying tick from the last frame of a loaded, non-looping
animation with a pending state performs the `setState` transition. -/
lemma qtick_complete (m : ASM) (a : Animation) (p : String)
    (hca : m.currentAnimation = some a) (hl : a.isLoaded = true)
    (hnoloop : a.loop = false) (hge : m.frameIndex + 1 ≥ a.frameCount)
    (hp : m.pendingState = some p) :
    qtick m = m.setState p none false (m.lastFrameTime + a.frameDuration) := by
  unfold qtick ASM.update ASM.curDuration
  rw [hca]
  simp only [hl, Bool.not_true, Bool.false_eq_true, if_false]
  rw [if_pos (by linarith [le_refl a.frameDuration] : m.lastFrameTime + a.frameDuration - m.lastFrameTime ≥ a.frameDuration)]
  rw [if_pos hge]
  simp only [hnoloop, Bool.false_eq_true, if_false]
  rw [hp]

/-- One qualifying tick from the last frame of a loaded, non-looping
animation with no pending state holds the last frame. -/
lemma qtick_hold (m : ASM) (a : Animation)
    (hca : m.currentAnimation = some a) (hl : a.isLoaded = true)
    (hnoloop : a.loop = false) (hge : m.frameIndex + 1 ≥ a.frameCount)
    (hp : m.pendingState = none) :
    qtick m = { m with frameIndex := a.frameCount - 1,
                       lastFrameTime := m.lastFrameTime + a.frameDuration } := by
  unfold qtick ASM.update ASM.curDuration
  rw [hca]
  simp only [hl, Bool.not_true, Bool.false_eq_true, if_false]
  rw [if_pos (by linarith [le_refl a.frameDuration] : m.lastFrameTime + a.frameDuration - m.lastFrameTime ≥ a.frameDuration)]
  rw [if_pos hge]
  simp only [hnoloop, Bool.false_eq_true, if_false]
  rw [hp]

/-- Iterating qualifying ticks from frame 0 of a loaded animation walks the
frame index while the end of the animation has not been reached. -/
lemma qtickIter_advance (a : Animation) (hl : a.isLoaded = true) :
    ∀ (k : ℕ) (m : ASM), m.currentAnimation = some a →
      m.frameIndex + k < a.frameCount →
      qtickIter k m = { m with frameIndex := m.frameIndex + k,
                               lastFrameTime := m.lastFrameTime + k * a.frameDuration } := by
  intro k
  induction k with
  | zero =>
    intro m hca _
    cases m
    simp [qtickIter]
  | succ k ih =>
    intro m hca hlt
    have hmid := ih m hca (by omega)
    have hstep := qtick_advance
      { m with frameIndex := m.frameIndex + k,
               lastFrameTime := m.lastFrameTime + (k : ℚ) * a.frameDuration } a hca hl
      (show m.frameIndex + k + 1 < a.frameCount by omega)
    unfold qtickIter
    rw [hmid, hstep]
    simp only [ASM.mk.injEq]
    refine ⟨trivial, trivial, trivial, by omega, by push_cast; ring, trivial⟩

/-- Claim C7: for a non-looping animation with `frameCount` frames, after
`setState(hit, onComplete = idle)` ticking the machine past `frameCount`
qualifying frame advances transitions `currentState` to `idle` (the
`onComplete` target) and resets the frame index to 0; `triggerOneShot(name)`
behaves identically to `setState(name, onComplete = idle)`; and a
non-looping animation with no `onComplete` target holds on its last frame. -/
theorem oneShot_returns_to_idle_spec
    (m : ASM) (hitA idleA : Animation) (n : ℕ) (t : ℚ)
    (hhit : m.getAnim "hit" = some hitA) (hhitLoaded : hitA.isLoaded = true)
    (hnoloop : hitA.loop = false) (hcount : hitA.frameCount = n) (hpos : 0 < n)
    (hidle : m.getAnim "idle" = some idleA) (hidleLoaded : idleA.isLoaded = true)
    (hcur : m.currentState ≠ some "hit") :
    ((qtickIter n (m.setState "hit" (some "idle") false t)).currentState = some "idle" ∧
     (qtickIter n (m.setState "hit" (some "idle") false t)).frameIndex = 0) ∧
    (∀ (m2 : ASM) (name : String) (now : ℚ),
      m2.triggerOneShot name now = m2.setState name (some "idle") false now) ∧
    (∀ (m3 : ASM) (a : Animation), m3.currentAnimation = some a →
      a.isLoaded = true → a.loop = false → m3.pendingState = none →
      m3.frameIndex = a.frameCount - 1 → 0 < a.frameCount →
      (qtick m3).frameIndex = a.frameCount - 1 ∧
      (qtick m3).currentState = m3.currentState ∧
      (qtick m3).currentAnimation = some a ∧
      (qtick m3).pendingState = none) := by
  refine ⟨?_, fun m2 name now => rfl, ?_⟩
  · -- the one-shot run to completion
    have hne : (m.currentState == some "hit") = false := by
      simp [hcur]
    have hm1 : m.setState "hit" (some "idle") false t =
        { m with currentState := some "hit", currentAnimation := some hitA,
                 frameIndex := 0, lastFrameTime := t,
                 pendingState := some "idle" } := by
      unfold ASM.setState
      rw [hhit]
      simp [hhitLoaded, hne]
    obtain ⟨k, rfl⟩ : ∃ k, n = k + 1 := ⟨n - 1, by omega⟩
    set m1 : ASM :=
      { m with currentState := some "hit", currentAnimation := some hitA,
               frameIndex := 0, lastFrameTime := t,
               pendingState := some "idle" } with hm1def
    have hmid : qtickIter k m1 =
        { m1 with frameIndex := 0 + k,
                  lastFrameTime := m1.lastFrameTime + k * hitA.frameDuration } := by
      exact qtickIter_advance hitA hhitLoaded k m1 rfl (by simp [hm1def]; omega)
    have hlast : qtick (qtickIter k m1) =
        (qtickIter k m1).setState "idle" none false
          ((qtickIter k m1).lastFrameTime + hitA.frameDuration) := by
      refine qtick_complete _ hitA "idle" ?_ hhitLoaded hnoloop ?_ ?_
      · rw [hmid]
      · rw [hmid]; simp [hm1def]; omega
      · rw [hmid]
    have hgetIdle : (qtickIter k m1).getAnim "idle" = some idleA := by
      rw [hmid]
      simpa [ASM.getAnim, hm1def] using hidle
    have hcur1 : (qtickIter k m1).currentState = some "hit" := by
      rw [hmid]
    rw [hm1]
    unfold qtickIter
    rw [hlast]
    unfold ASM.setState
    rw [hgetIdle, hcur1]
    simp [hidleLoaded]
  · -- holding the last frame
    intro m3 a hca hl hnl hp hfi hc
    have := qtick_hold m3 a hca hl hnl (by omega) hp
    rw [this]
    exact ⟨rfl, rfl, hca, hp⟩

/-- Witness for C7: a machine loaded with the `ANIMATION_CONFIG` animations,
idling, then hit-triggered at time 0; four qualifying ticks return it to
idle at frame 0. -/
theorem oneShot_returns_to_idle_spec_witness :
    (qtickIter 4
      (({ animations := [("idle", idleAnimation), ("hit", hitAnimation)],
          currentState := some "idle", currentAnimation := some idleAnimation,
          frameIndex := 0, lastFrameTime := 0, pendingState := none } : ASM).setState
        "hit" (some "idle") false 0)).currentState = some "idle" :=
  (oneShot_returns_to_idle_spec
    { animations := [("idle", idleAnimation), ("hit", hitAnimation)],
      currentState := some "idle", currentAnimation := some idleAnimation,
      frameIndex := 0, lastFrameTime := 0, pendingState := none }
    hitAnimation idleAnimation 4 0 rfl rfl rfl rfl (by decide) rfl rfl
    (by simp [idleAnimation, hitAnimation])).1.1

end Animations

section WindowController

/-- Counterexample to claim C8 as stated: `setClickThrough` performs no
liveness check — invoked with an absent (null) window reference it throws a
`TypeError` instead of becoming a no-op, and invoked on a destroyed window
it throws the Electron destroyed-object error. -/
theorem setClickThrough_missing_liveness_check :
    setClickThrough none "linux" true
      = .error "TypeError: cannot call method of null" ∧
    setClickThrough (some { id := 0, destroyed := true }) "linux" true
      = .error "Error: Object has been destroyed" := ⟨rfl, rfl⟩

/-- Claim C8 (amended): of the listed window-controller operations,
`repositionOverlay`, `setOverlayOpacity`, `enableOverlayClickThrough`,
`disableOverlayClickThrough` and `applyFullscreenOverlayPolicy` check window
liveness first and become no-ops (no native call, no escaping error) when
the overlay window is absent or destroyed; `setClickThrough` performs no
such check (its callers guard it with the liveness test). -/
theorem window_ops_liveness_noop
    (st : OverlayModule) (w : Option WinRef) (s : GeoSettings) (scr : WorkArea)
    (ps : PolicySettings) (platform platform2 : String) (opacity : ℚ)
    (hst : st.overlayWindow = none ∨
      ∃ r, st.overlayWindow = some r ∧ r.destroyed = true)
    (hw : w = none ∨ ∃ r, w = some r ∧ r.destroyed = true) :
    repositionOverlay st s scr = .ok [] ∧
    setOverlayOpacity st opacity = .ok [] ∧
    enableOverlayClickThrough st platform = .ok [] ∧
    disableOverlayClickThrough st = .ok [] ∧
    applyFullscreenOverlayPolicy w ps platform2 = .ok [] := by
  refine ⟨?_, ?_, ?_, ?_, ?_⟩ <;>
    [rcases hst with h | ⟨r, h, hd⟩; rcases hst with h | ⟨r, h, hd⟩;
     rcases hst with h | ⟨r, h, hd⟩; rcases hst with h | ⟨r, h, hd⟩;
     rcases hw with h | ⟨r, h, hd⟩] <;>
    simp [repositionOverlay, setOverlayOpacity, enableOverlayClickThrough,
      disableOverlayClickThrough, applyFullscreenOverlayPolicy, h]
  all_goals simp [hd]

/-- Witness for the amended C8 on a destroyed overlay window. -/
theorem window_ops_liveness_noop_witness :
    repositionOverlay
        { overlayWindow := some { id := 3, destroyed := true }, nextId := 4 }
        ⟨none, none, none⟩ ⟨1920, 1080⟩ = .ok [] ∧
    setOverlayOpacity
        { overlayWindow := some { id := 3, destroyed := true }, nextId := 4 }
        (1/2) = .ok [] :=
  let h := window_ops_liveness_noop
    { overlayWindow := some { id := 3, destroyed := true }, nextId := 4 }
    none ⟨none, none, none⟩ ⟨1920, 1080⟩ ⟨none, none⟩ "linux" "linux" (1/2)
    (Or.inr ⟨{ id := 3, destroyed := true }, rfl, rfl⟩) (Or.inl rfl)
  ⟨h.1, h.2.1⟩

/-- Counterexample to claim C9 as stated: starting from an empty controller,
a first `createOverlayWindow` leaves a live overlay window in the module
variable, and a second `createOverlayWindow` does **not** return that
existing window — it constructs and returns a different (fresh) one. -/
theorem createOverlayWindow_duplicates :
    (createOverlayWindow { overlayWindow := none, nextId := 0 }
        ⟨none, none, none⟩ ⟨1920, 1080⟩).1.overlayWindow
      = some ((createOverlayWindow { overlayWindow := none, nextId := 0 }
        ⟨none, none, none⟩ ⟨1920, 1080⟩).2) ∧
    ((createOverlayWindow { overlayWindow := none, nextId := 0 }
        ⟨none, none, none⟩ ⟨1920, 1080⟩).2).destroyed = false ∧
    (createOverlayWindow
        (createOverlayWindow { overlayWindow := none, nextId := 0 }
          ⟨none, none, none⟩ ⟨1920, 1080⟩).1
        ⟨none, none, none⟩ ⟨1920, 1080⟩).2
      ≠ (createOverlayWindow { overlayWindow := none, nextId := 0 }
        ⟨none, none, none⟩ ⟨1920, 1080⟩).2 := by
  refine ⟨rfl, rfl, ?_⟩
  intro hcontra
  exact absurd (congrArg WinRef.id hcontra) (by decide)

/-- Claim C9 (amended): `createOverlayWindow` does not implement
create-if-absent semantics: every call constructs a fresh window (with the
next allocation identity) and overwrites the module handle, so a call made
while a live window exists yields a window different from the existing one;
the controller retains only the most recent handle. -/
theorem createOverlayWindow_always_constructs
    (st : OverlayModule) (s : GeoSettings) (scr : WorkArea) (r : WinRef)
    (hlive : st.overlayWindow = some r) (hfresh : r.id < st.nextId) :
    (createOverlayWindow st s scr).1.overlayWindow
      = some (createOverlayWindow st s scr).2 ∧
    (createOverlayWindow st s scr).2.id = st.nextId ∧
    (createOverlayWindow st s scr).2 ≠ r ∧
    (createOverlayWindow st s scr).1.nextId = st.nextId + 1 := by
  refine ⟨rfl, rfl, ?_, rfl⟩
  intro hcontra
  have : st.nextId = r.id := congrArg WinRef.id hcontra
  omega

/-- Witness for the amended C9: a second create call against a module that
already holds the live window allocated by the first. -/
theorem createOverlayWindow_always_constructs_witness :
    (createOverlayWindow
        { overlayWindow := some { id := 0, destroyed := false }, nextId := 1 }
        ⟨none, none, none⟩ ⟨1920, 1080⟩).2 ≠ { id := 0, destroyed := false } :=
  (createOverlayWindow_always_constructs
    { overlayWindow := some { id := 0, destroyed := false }, nextId := 1 }
    ⟨none, none, none⟩ ⟨1920, 1080⟩ { id := 0, destroyed := false }
    rfl (by decide)).2.2.1

end WindowController

section CaptureAtInit

/-- A `settings:update` never touches the IPC module state. -/
lemma applySettingsUpdates_ipc (platform : String) :
    ∀ (parts : List JVal) (sys : SysState),
      (applySettingsUpdates platform sys parts).ipc = sys.ipc := by
  intro parts
  induction parts with
  | nil => intro sys; rfl
  | cons p rest ih =>
    intro sys
    rw [applySettingsUpdates, ih]
    rfl

/-- Claim C10: the modifier-filtering behavior of the input hook is fixed by
the `ignoreModifierKeys` value captured at the single successful
`initGlobalInputHooks` call: every later `settings:update` leaves the IPC
module state untouched, so subsequent keydown dispatches filter according to
the value captured at initialization, not the updated stored value; and a
further `initGlobalInputHooks` call while hooks are running returns
immediately without re-registering handlers. -/
theorem capturedIgnoreModifiers_fixed_at_init
    (platform : String) (sys : SysState) (settings0 ign0 : JVal) (st1 : IpcState)
    (hnotrun : sys.ipc.inputHooksRunning = false)
    (hread : readIgnoreModifiers settings0 = .ok ign0)
    (hinit : initGlobalInputHooks sys.ipc settings0 true = .ok st1) :
    st1.capturedIgnoreModifiers = some ign0 ∧
    (∀ parts : List JVal,
      (applySettingsUpdates platform { sys with ipc := st1 } parts).ipc = st1) ∧
    (∀ (parts : List JVal) (kc : ℕ) (now : ℤ),
      dispatchKeydown
          (applySettingsUpdates platform { sys with ipc := st1 } parts).ipc kc now
        = keydownHandler ign0 kc st1 now) ∧
    (∀ (settings2 : JVal) (startSucceeds : Bool),
      initGlobalInputHooks st1 settings2 startSucceeds = .ok st1) := by
  have hst1 : st1 = { sys.ipc with capturedIgnoreModifiers := some ign0,
                                   inputHooksRunning := true } := by
    unfold initGlobalInputHooks at hinit
    rw [if_neg (by simp [hnotrun]), hread] at hinit
    simpa using hinit.symm
  have hcap : st1.capturedIgnoreModifiers = some ign0 := by rw [hst1]
  have hrun : st1.inputHooksRunning = true := by rw [hst1]
  refine ⟨hcap, fun parts => applySettingsUpdates_ipc platform parts _, ?_, ?_⟩
  · intro parts kc now
    rw [applySettingsUpdates_ipc platform parts]
    unfold dispatchKeydown
    rw [hcap]
  · intro settings2 startSucceeds
    unfold initGlobalInputHooks
    rw [if_pos hrun]

/-- Witness for C10: hooks started from a fresh controller with the default
settings (`ignoreModifierKeys := true`); after an update that sets
`inputHooks.ignoreModifierKeys` to false, a Shift keydown is still dropped
per the captured value. -/
theorem capturedIgnoreModifiers_fixed_at_init_witness :
    dispatchKeydown
        (applySettingsUpdates "linux"
          { store := { cachedSettings := none, file := none },
            ipc := { totalInputs := 0, inputHooksRunning := true,
                     capturedIgnoreModifiers := some (.bool true),
                     overlayWindow := none } }
          [.obj (jobj [("inputHooks",
              .obj (jobj [("ignoreModifierKeys", .bool false)]))])]).ipc
        UiohookKey.Shift 11
      = keydownHandler (.bool true) UiohookKey.Shift
          { totalInputs := 0, inputHooksRunning := true,
            capturedIgnoreModifiers := some (.bool true),
            overlayWindow := none } 11 :=
  (capturedIgnoreModifiers_fixed_at_init "linux"
    { store := { cachedSettings := none, file := none },
      ipc := { totalInputs := 0, inputHooksRunning := false,
               capturedIgnoreModifiers := none, overlayWindow := none } }
    (DEFAULT_SETTINGS "linux") (.bool true)
    { totalInputs := 0, inputHooksRunning := true,
      capturedIgnoreModifiers := some (.bool true), overlayWindow := none }
    rfl rfl rfl).2.2.1
    [.obj (jobj [("inputHooks",
        .obj (jobj [("ignoreModifierKeys", .bool false)]))])]
    UiohookKey.Shift 11

end CaptureAtInit

section SettingsStoreBugs

/-- The store before any settings file exists (first run). -/
def freshStore : StoreState := { cachedSettings := none, file := none }

/-- The persisted record left behind by a user who moved the overlay to a
free position — the C4 scenario. -/
def freePositionJson : JVal :=
  .obj (jobj
    [ ("position", .obj (jobj
        [ ("mode", .str "free"), ("x", .num 10), ("y", .num 20) ])) ])

/-- A store whose cache and persisted file hold the free-position record. -/
def storeWithFreeFile : StoreState :=
  { cachedSettings := some freePositionJson, file := some freePositionJson }

/-- Claim C1 is a code bug: `DEFAULT_SETTINGS` has no `size` key, so
`validateSettings` crashes reading `validated.size.scale` whenever the
merged record lacks one.  Evaluating the code at the failing input: from a
fresh store (current settings = defaults), `updateSettings` on the partial
`record [opacity := 0.5]` throws a `TypeError` to the caller instead of
returning the validated settings. -/
theorem updateSettings_opacity_throws :
    (updateSettings "linux" freshStore (.obj (jobj [("opacity", .num (1/2))]))).2
      = .error "TypeError: cannot read properties of undefined" := rfl

/-- Claim C4 is a code bug with the same root cause: `resetSettings` resets
the in-memory cache and returns the defaults, but the embedded
`saveSettings(DEFAULT_SETTINGS)` throws inside `validateSettings` (caught,
returning false), so the persisted settings file is **not** overwritten —
here it still holds the free-position record, which differs from the
defaults.  The scenario's first step, `updateSettings` on the free-position
partial, already throws as well. -/
theorem resetSettings_persist_bug :
    (resetSettings "linux" storeWithFreeFile).1.file = some freePositionJson ∧
    (resetSettings "linux" storeWithFreeFile).1.cachedSettings
      = some (DEFAULT_SETTINGS "linux") ∧
    (resetSettings "linux" storeWithFreeFile).2 = DEFAULT_SETTINGS "linux" ∧
    (saveSettings "linux" storeWithFreeFile (DEFAULT_SETTINGS "linux")).2 = false ∧
    freePositionJson ≠ DEFAULT_SETTINGS "linux" ∧
    (updateSettings "linux" freshStore freePositionJson).2
      = .error "TypeError: cannot read properties of undefined" :=
  ⟨rfl, rfl, rfl, rfl, by decide, rfl⟩

end SettingsStoreBugs
